import Mathlib

/-!
# Warm-transfer orchestration core: shallow embedding

This file embeds the transfer orchestration core of the repository
(`backend/app/services/transfer_service.py`, `backend/app/services/livekit_service.py`,
`backend/app/services/ai_service.py`) and settles the specification claims about it.

Modelling conventions:
* Python dicts keyed by strings become association lists `List (String × α)`
  with Python dict semantics (update-in-place on existing key, append otherwise).
* `datetime.utcnow()` becomes a `now : Nat` clock carried in the state; no claim
  depends on actual time values.
* External network effects (the LiveKit server round-trips, SQL commits,
  websocket notifications) cannot fail in the model; the *local* state tracking
  these calls perform (`active_rooms`, `participant_sessions`,
  `active_transfers`, DB rows) is embedded faithfully.  Verbatim log calls are
  dropped.
* `uuid.uuid4()` results are passed in as parameters (`transfer_id`,
  `room_suffix`); freshness is a hypothesis where needed.
* The summarizer response is a dynamically typed Python value: the orchestrator
  subscripts it with string keys.  `PyVal` models the two shapes that occur
  (a dict of strings, or a bare string), and `pySubscript` models the Python behaviour of
  `value[key]`, including the `TypeError` raised when subscripting a `str`
  with a string key.
-/

namespace WarmXfer

/-- Python dict lookup (first binding of the key). -/
def dictGet {α : Type} : List (String × α) → String → Option α
  | [], _ => none
  | (k', v) :: rest, k => if k' = k then some v else dictGet rest k

/-- Python dict membership test (`k in d`). -/
def dictContains {α : Type} (l : List (String × α)) (k : String) : Bool :=
  (dictGet l k).isSome

/-- Python dict assignment `d[k] = v`: replaces the binding in place if the key
is present, appends otherwise. -/
def dictInsert {α : Type} : List (String × α) → String → α → List (String × α)
  | [], k, v => [(k, v)]
  | (k', v') :: rest, k, v =>
      if k' = k then (k, v) :: rest else (k', v') :: dictInsert rest k v

/-- Python `del d[k]` / `d.pop(k, None)`: removes the binding if present. -/
def dictRemove {α : Type} : List (String × α) → String → List (String × α)
  | [], _ => []
  | (k', v') :: rest, k =>
      if k' = k then dictRemove rest k else (k', v') :: dictRemove rest k

/-- Update the value at a key when present, leave the dict unchanged otherwise
(the `db.query(...).first(); if row: mutate row` pattern). -/
def dictModify {α : Type} : List (String × α) → String → (α → α) → List (String × α)
  | [], _, _ => []
  | (k', v') :: rest, k, f =>
      if k' = k then (k', f v') :: rest else (k', v') :: dictModify rest k f

/-- A dynamically typed Python value, covering the shapes the summarizer
pipeline produces: a dict of string fields, or a bare string. -/
inductive PyVal : Type where
  | str (s : String)
  | dict (entries : List (String × String))
deriving Repr, DecidableEq

/-- Errors raised by the embedded code, mirroring Python exception classes. -/
inductive TErr : Type where
  | valueError (msg : String)
  | exception (msg : String)
  | typeError (msg : String)
  | keyError (key : String)
deriving Repr, DecidableEq

/-- Python subscripting `v[key]` for a string key: succeeds on a dict that has
the key, raises `KeyError` on a dict without it, and raises `TypeError` on a
`str` (string indices must be integers). -/
def pySubscript : PyVal → String → Except TErr String
  | .str _, _ => .error (.typeError "string indices must be integers")
  | .dict d, k =>
      match dictGet d k with
      | some v => .ok v
      | none => .error (.keyError k)

/-- The `phase` field of an in-memory transfer record.  The source assigns
exactly the strings `"waiting_for_agents"` (at creation, transfer_service.py
line 111) and `"briefing"` (line 183). -/
inductive Phase : Type where
  | waiting_for_agents
  | briefing
deriving Repr, DecidableEq

/-- The `status` strings the source assigns to transfer records:
`"initiated"`, `"in_progress"`, `"completed"`, `"failed"`, `"cancelled"`,
`"error"`. -/
inductive TStatus : Type where
  | initiated
  | in_progress
  | completed
  | failed
  | cancelled
  | error
deriving Repr, DecidableEq

/-- Entry of `transfer["participants"]`: `{"joined_at": ..., "role": ...}`. -/
structure ParticipantEntry : Type where
  joined_at : Nat
  role : String
deriving Repr, DecidableEq

/-- In-memory transfer record, `self.active_transfers[transfer_id]`
(transfer_service.py lines 101-112).  The `participants` key is created lazily
in the source; an initially empty dict is equivalent. -/
structure TransferRec : Type where
  transfer_id : String
  call_id : String
  source_agent_id : String
  target_agent_id : String
  transfer_room : String
  original_room : String
  status : TStatus
  ai_summary : PyVal
  created_at : Nat
  phase : Phase
  participants : List (String × ParticipantEntry)
  completed_at : Option Nat := none
  cancelled_at : Option Nat := none
deriving Repr, DecidableEq

/-- LiveKit access token (livekit_service.py `generate_access_token`):
identity, display name, and a `VideoGrants` with `room_join=True` on the
given room.  The 6-hour TTL and JSON metadata are orthogonal to every claim
and omitted. -/
structure AccessToken : Type where
  identity : String
  name : String
  room : String
  room_join : Bool
  can_publish : Bool
  can_subscribe : Bool
  can_publish_data : Bool
deriving Repr, DecidableEq

/-- Participant entry of a tracked room
(`self.active_rooms[room]["participants"][identity]`). -/
structure RoomParticipant : Type where
  identity : String
  name : String
  role : String
  joined_at : Nat
deriving Repr, DecidableEq

/-- Entry of `LiveKitService.active_rooms` (livekit_service.py lines 137-144). -/
structure RoomRec : Type where
  name : String
  created_at : Nat
  max_participants : Nat
  participants : List (String × RoomParticipant)
  status : String
deriving Repr, DecidableEq

/-- Entry of `LiveKitService.participant_sessions`
(livekit_service.py lines 251-255). -/
structure SessionRec : Type where
  room_name : String
  joined_at : Nat
  role : String
deriving Repr, DecidableEq

/-- Entry of `LiveKitService.active_transfers`
(livekit_service.py lines 327-336). -/
structure LkTransferRec : Type where
  transfer_id : String
  transfer_room : String
  original_room : String
  agent_a : String
  agent_b : String
  caller : String
  status : TStatus
  created_at : Nat
  completed_at : Option Nat := none
deriving Repr, DecidableEq

/-- Local state of `LiveKitService`. -/
structure LiveKitState : Type where
  active_rooms : List (String × RoomRec)
  lk_active_transfers : List (String × LkTransferRec)
  participant_sessions : List (String × SessionRec)
deriving Repr, DecidableEq

/-- Directory row for an operator (models/agent.py columns used by the
orchestrator). -/
structure AgentRec : Type where
  agent_id : String
  is_available : Bool
  status : String
  current_calls : Nat
  max_concurrent_calls : Nat
  successful_transfers : Nat
  total_calls_handled : Nat
deriving Repr, DecidableEq

/-- Call row (models/call.py columns used by the orchestrator).
`caller_identity` stands for `call.caller_info.get("identity", "caller")`. -/
structure CallRec : Type where
  call_id : String
  room_name : String
  caller_identity : String
  priority : String
deriving Repr, DecidableEq

/-- Durable transfer row (models/transfer.py columns written by the
orchestrator). -/
structure DbTransferRec : Type where
  transfer_id : String
  call_id : String
  source_agent_id : String
  target_agent_id : String
  transfer_room_name : String
  status : TStatus
  ai_summary : String
  sentiment_analysis : String
  ai_context : Option String := none
  agent_feedback : Option String := none
  was_successful : Option Bool := none
  duration_seconds : Option Nat := none
  completed_at : Option Nat := none
deriving Repr, DecidableEq

/-- Model of `generate_access_token` (livekit_service.py lines 84-112): issues a JWT
for `participant_identity` with `room_join=True` on `room_name`. -/
def generate_access_token (room_name participant_identity : String)
    (participant_name : Option String) : AccessToken :=
  { identity := participant_identity
    name := participant_name.getD participant_identity
    room := room_name
    room_join := true
    can_publish := true
    can_subscribe := true
    can_publish_data := true }

/-- Model of `create_room` (livekit_service.py lines 114-158): creates the room on the
LiveKit server (modelled as always succeeding) and tracks it locally. -/
def create_room (lk : LiveKitState) (room_name : String) (max_participants : Nat)
    (now : Nat) : LiveKitState :=
  { lk with
      active_rooms := dictInsert lk.active_rooms room_name
        { name := room_name
          created_at := now
          max_participants := max_participants
          participants := []
          status := "active" } }

/-- Model of `delete_room` (livekit_service.py lines 160-176): deletes the room on the
server and drops the local tracking entry; returns `True`. -/
def delete_room (lk : LiveKitState) (room_name : String) : LiveKitState × Bool :=
  ({ lk with active_rooms := dictRemove lk.active_rooms room_name }, true)

/-- Result of `add_participant_to_room`. -/
structure AddParticipantResult : Type where
  access_token : AccessToken
  room_name : String
  participant_identity : String
  role : String
deriving Repr, DecidableEq

/-- Model of `add_participant_to_room` (livekit_service.py lines 222-269): issues an
access token, records the participant under the room if the room is locally
tracked, and records the participant session. -/
def add_participant_to_room (lk : LiveKitState) (room_name participant_identity : String)
    (participant_name : Option String) (role : String) (now : Nat) :
    LiveKitState × AddParticipantResult :=
  let token := generate_access_token room_name participant_identity participant_name
  let entry : RoomParticipant :=
    { identity := participant_identity
      name := participant_name.getD participant_identity
      role := role
      joined_at := now }
  let rooms :=
    if dictContains lk.active_rooms room_name then
      dictModify lk.active_rooms room_name (fun r =>
        { r with participants := dictInsert r.participants participant_identity entry })
    else lk.active_rooms
  let sessions := dictInsert lk.participant_sessions participant_identity
    { room_name := room_name, joined_at := now, role := role }
  ({ lk with active_rooms := rooms, participant_sessions := sessions },
   { access_token := token
     room_name := room_name
     participant_identity := participant_identity
     role := role })

/-- Model of `remove_participant_from_room` (livekit_service.py lines 271-298): removes
the participant on the server, from the local tracking of the room, and from the
session map; returns `True`. -/
def remove_participant_from_room (lk : LiveKitState) (room_name participant_identity : String) :
    LiveKitState × Bool :=
  let rooms :=
    if dictContains lk.active_rooms room_name then
      dictModify lk.active_rooms room_name (fun r =>
        { r with participants := dictRemove r.participants participant_identity })
    else lk.active_rooms
  ({ lk with
      active_rooms := rooms
      participant_sessions := dictRemove lk.participant_sessions participant_identity },
   true)

/-- Model of `create_transfer_room` (livekit_service.py lines 300-348): creates the
briefing room `transfer_<id>_<suffix>` with capacity 3 and records the
transfer.  The uuid hex suffix is a parameter. -/
def create_transfer_room (lk : LiveKitState) (original_room agent_a_identity
    agent_b_identity caller_identity transfer_id room_suffix : String) (now : Nat) :
    LiveKitState × String :=
  let transfer_room_name := "transfer_" ++ transfer_id ++ "_" ++ room_suffix
  let lk1 := create_room lk transfer_room_name 3 now
  let lk2 := { lk1 with
      lk_active_transfers := dictInsert lk1.lk_active_transfers transfer_id
        { transfer_id := transfer_id
          transfer_room := transfer_room_name
          original_room := original_room
          agent_a := agent_a_identity
          agent_b := agent_b_identity
          caller := caller_identity
          status := .initiated
          created_at := now } }
  (lk2, transfer_room_name)

/-- Model of `complete_warm_transfer` (livekit_service.py lines 350-396).  On success:
remove agent A from the original room, add agent B to it, delete the briefing
room, and mark the transfer completed.  On failure: only mark it failed.
Raises when the transfer is unknown. -/
def lk_complete_warm_transfer (lk : LiveKitState) (transfer_id : String) (success : Bool)
    (now : Nat) : Except TErr (LiveKitState × LkTransferRec) :=
  match dictGet lk.lk_active_transfers transfer_id with
  | none => .error (.exception ("Transfer " ++ transfer_id ++ " not found"))
  | some t =>
      if success then
        let (lk1, _) := remove_participant_from_room lk t.original_room t.agent_a
        let (lk2, _) := add_participant_to_room lk1 t.original_room t.agent_b none "agent" now
        let (lk3, _) := delete_room lk2 t.transfer_room
        let t' := { t with status := .completed, completed_at := some now }
        let lk4 := { lk3 with
            lk_active_transfers := dictInsert lk3.lk_active_transfers transfer_id t' }
        .ok (lk4, t')
      else
        let t' := { t with status := .failed, completed_at := some now }
        .ok ({ lk with
                lk_active_transfers := dictInsert lk.lk_active_transfers transfer_id t' },
             t')

/-- Python `needle in haystack` substring test. -/
def strContains (haystack needle : String) : Bool :=
  (haystack.splitOn needle).length > 1

/-- Model of `AIService._get_enhanced_fallback_summary` (ai_service.py lines 682-706):
a deterministic local summary used when no provider is reachable.  The
multi-line literal is flattened to its text; `.strip()` is reflected by
dropping the surrounding indentation. -/
def enhanced_fallback_summary (call_id context : String) : String :=
  let issue_type :=
    if strContains context.toLower "transcript:" then
      if strContains context.toLower "billing" || strContains context.toLower "payment" then
        "billing and payment issues"
      else if strContains context.toLower "technical" || strContains context.toLower "account" then
        "technical account problems"
      else
        "general customer service needs"
    else "customer service inquiry"
  let _ := call_id
  "The customer contacted us regarding " ++ issue_type ++
    ". I have gathered their account information and initial details about their concern. The customer appears cooperative and is seeking resolution today. Please continue with advanced troubleshooting and provide them with a definitive solution. All account verification has been completed."

/-- The *effective* `AIService.generate_call_summary` (ai_service.py lines
635-680).  The class defines this method twice; this second definition
shadows the dict-returning one at lines 150-201.  It returns a bare string:
the provider response when OpenAI is configured and succeeds, and the local
fallback summary otherwise.  Every exception is absorbed — the function never
raises.  `openai_available` models `self.providers.get("openai")` and
`openai_result` the awaited `self._generate_openai(...)` call. -/
def ai_generate_call_summary (openai_available : Bool)
    (openai_result : Except TErr String) (call_id context : String) : PyVal :=
  if openai_available then
    match openai_result with
    | .ok response => .str response
    | .error _ => .str (enhanced_fallback_summary call_id context)
  else
    .str (enhanced_fallback_summary call_id context)

/-- The summary-payload accesses performed while building the durable transfer
row (transfer_service.py lines 93-94): `ai_summary["summary"]` and
`ai_summary["sentiment"]`. -/
def initiate_summary_fields (ai_summary : PyVal) : Except TErr (String × String) := do
  let summary_text ← pySubscript ai_summary "summary"
  let sentiment_text ← pySubscript ai_summary "sentiment"
  .ok (summary_text, sentiment_text)

/-- Python `str(e)` for the embedded exception values, as interpolated into
wrapper messages. -/
def errMsg : TErr → String
  | .valueError m => m
  | .exception m => m
  | .typeError m => m
  | .keyError k => k

/-- The whole mutable state reachable from `WarmTransferService`: its own
dicts, the `LiveKitService` tracking state, and the relational rows it reads
and writes.  `transfer_timeouts` maps a transfer id to its armed timer task;
the task handle itself carries no information, so `Unit` stands for it. -/
structure SystemState : Type where
  active_transfers : List (String × TransferRec)
  transfer_timeouts : List (String × Unit)
  lk : LiveKitState
  agents : List (String × AgentRec)
  calls : List (String × CallRec)
  db_transfers : List (String × DbTransferRec)
  now : Nat
deriving Repr, DecidableEq

/-- The `except` block of `initiate_warm_transfer` (transfer_service.py lines
139-144): drop the live entry if it was created. -/
def cleanup_on_init_failure (s : SystemState) (transfer_id : String) : SystemState :=
  { s with active_transfers := dictRemove s.active_transfers transfer_id }

/-- Successful response of `initiate_warm_transfer` (transfer_service.py
lines 125-137); the informational `next_steps` strings are omitted. -/
structure InitiateResult : Type where
  transfer_id : String
  status : String
  transfer_room : String
  ai_summary : PyVal
deriving Repr, DecidableEq

/-- Model of `WarmTransferService.initiate_warm_transfer` (transfer_service.py lines
36-144).  `transfer_id` and `room_suffix` stand for the generated uuids;
`ai_summary` is the awaited value of `self.ai.generate_call_summary(...)`
(see `ai_generate_call_summary` for its actual shape).  Raised `ValueError`s
are re-raised by the `except` block as `Exception("Transfer initiation
failed: ...")` after the conditional cleanup. -/
def initiate_warm_transfer (s : SystemState)
    (call_id source_agent_id target_agent_id : String) (reason : Option String)
    (transfer_id room_suffix : String) (ai_summary : PyVal) :
    SystemState × Except TErr InitiateResult :=
  match dictGet s.calls call_id with
  | none =>
      (cleanup_on_init_failure s transfer_id,
       .error (.exception ("Transfer initiation failed: Call " ++ call_id ++ " not found")))
  | some call =>
    match dictGet s.agents source_agent_id with
    | none =>
        (cleanup_on_init_failure s transfer_id,
         .error (.exception ("Transfer initiation failed: Source agent " ++
           source_agent_id ++ " not found")))
    | some _source_agent =>
      match dictGet s.agents target_agent_id with
      | none =>
          (cleanup_on_init_failure s transfer_id,
           .error (.exception ("Transfer initiation failed: Target agent " ++
             target_agent_id ++ " not found")))
      | some target_agent =>
        if target_agent.is_available = false ∨ target_agent.status ≠ "online" then
          (cleanup_on_init_failure s transfer_id,
           .error (.exception ("Transfer initiation failed: Target agent " ++
             target_agent_id ++ " is not available")))
        else if target_agent.current_calls ≥ target_agent.max_concurrent_calls then
          (cleanup_on_init_failure s transfer_id,
           .error (.exception ("Transfer initiation failed: Target agent " ++
             target_agent_id ++ " is at capacity")))
        else
          -- `ai_summary` is awaited here in the source, before room creation.
          let (lk1, transfer_room_name) := create_transfer_room s.lk call.room_name
            source_agent_id target_agent_id call.caller_identity transfer_id room_suffix s.now
          match initiate_summary_fields ai_summary with
          | .error e =>
              -- the TypeError/KeyError surfaces after the briefing room exists
              (cleanup_on_init_failure { s with lk := lk1 } transfer_id,
               .error (.exception ("Transfer initiation failed: " ++ errMsg e)))
          | .ok (summary_text, sentiment_text) =>
              let db1 := dictInsert s.db_transfers transfer_id
                { transfer_id := transfer_id
                  call_id := call_id
                  source_agent_id := source_agent_id
                  target_agent_id := target_agent_id
                  transfer_room_name := transfer_room_name
                  status := .initiated
                  ai_summary := summary_text
                  sentiment_analysis := sentiment_text }
              let live : TransferRec :=
                { transfer_id := transfer_id
                  call_id := call_id
                  source_agent_id := source_agent_id
                  target_agent_id := target_agent_id
                  transfer_room := transfer_room_name
                  original_room := call.room_name
                  status := .initiated
                  ai_summary := ai_summary
                  created_at := s.now
                  phase := .waiting_for_agents
                  participants := [] }
              let _ := reason
              let s1 := { s with
                  lk := lk1
                  db_transfers := db1
                  active_transfers := dictInsert s.active_transfers transfer_id live
                  transfer_timeouts := dictInsert s.transfer_timeouts transfer_id () }
              (s1, .ok { transfer_id := transfer_id
                         status := "initiated"
                         transfer_room := transfer_room_name
                         ai_summary := ai_summary })

/-- Successful response of `join_transfer_room` (transfer_service.py lines
216-222); the constant `ws_url` is omitted. -/
structure JoinResult : Type where
  access_token : AccessToken
  room_name : String
  transfer_phase : Phase
  ai_summary : Option PyVal
deriving Repr, DecidableEq

/-- Model of `WarmTransferService.join_transfer_room` (transfer_service.py lines
146-226).  `agent_context` is the awaited `generate_agent_context` response
(used only for the data push and the DB row).  The both-operators-present
check fires the `briefing` transition exactly when the phase is still
`waiting_for_agents`.  The response carries the stored summary payload only
for the target operator. -/
def join_transfer_room (s : SystemState) (transfer_id agent_id role : String)
    (agent_context : String) : SystemState × Except TErr JoinResult :=
  match dictGet s.active_transfers transfer_id with
  | none => (s, .error (.valueError ("Transfer " ++ transfer_id ++ " not found")))
  | some t =>
    let (lk1, access) := add_participant_to_room s.lk t.transfer_room agent_id
      (some ("Agent-" ++ agent_id)) role s.now
    let parts := dictInsert t.participants agent_id { joined_at := s.now, role := role }
    let t1 := { t with participants := parts }
    if (dictContains parts t.source_agent_id && dictContains parts t.target_agent_id) = true
        ∧ t.phase = Phase.waiting_for_agents then
      let t2 := { t1 with phase := .briefing, status := .in_progress }
      -- generate_agent_context(call_summary=transfer["ai_summary"]["summary"], ...)
      match pySubscript t2.ai_summary "summary" with
      | .error e =>
          -- the exception leaves the shared-dict mutations above in place
          ({ s with
              lk := lk1
              active_transfers := dictInsert s.active_transfers transfer_id t2 },
           .error (.exception ("Failed to join transfer room: " ++ errMsg e)))
      | .ok _call_summary =>
          let db1 := dictModify s.db_transfers transfer_id (fun r =>
            { r with status := .in_progress, ai_context := some agent_context })
          let s1 := { s with
              lk := lk1
              db_transfers := db1
              active_transfers := dictInsert s.active_transfers transfer_id t2 }
          (s1, .ok { access_token := access.access_token
                     room_name := access.room_name
                     transfer_phase := t2.phase
                     ai_summary :=
                       if agent_id = t2.target_agent_id then some t2.ai_summary else none })
    else
      let s1 := { s with
          lk := lk1
          active_transfers := dictInsert s.active_transfers transfer_id t1 }
      (s1, .ok { access_token := access.access_token
                 room_name := access.room_name
                 transfer_phase := t1.phase
                 ai_summary :=
                   if agent_id = t1.target_agent_id then some t1.ai_summary else none })

/-- Model of `WarmTransferService._update_agent_post_transfer` (transfer_service.py
lines 482-503).  `max(0, current_calls - 1)` is truncated `Nat` subtraction. -/
def update_agent_post_transfer (agents : List (String × AgentRec))
    (source_agent_id target_agent_id : String) (success : Bool) :
    List (String × AgentRec) :=
  let a1 := dictModify agents source_agent_id (fun a =>
    let a := if success then { a with successful_transfers := a.successful_transfers + 1 }
             else a
    { a with current_calls := a.current_calls - 1 })
  dictModify a1 target_agent_id (fun a =>
    { a with current_calls := a.current_calls + 1
             total_calls_handled := a.total_calls_handled + 1 })

/-- Successful response of `complete_transfer` (transfer_service.py lines
301-306). -/
structure CompleteResult : Type where
  transfer_id : String
  status : TStatus
  success : Bool
  duration : Option Nat
deriving Repr, DecidableEq

/-- Model of `WarmTransferService.complete_transfer` (transfer_service.py lines
228-311).  Note there is no phase guard: any live transfer can be completed.
On success the LiveKit-side handoff runs; on failure only the bookkeeping is
written.  `_cleanup_transfer` drops the live entry and the timer in both
cases. -/
def complete_transfer (s : SystemState) (transfer_id : String) (success : Bool)
    (feedback : Option String) : SystemState × Except TErr CompleteResult :=
  match dictGet s.active_transfers transfer_id with
  | none => (s, .error (.valueError ("Transfer " ++ transfer_id ++ " not found")))
  | some t =>
    let timeouts1 := dictRemove s.transfer_timeouts transfer_id
    if success then
      match lk_complete_warm_transfer s.lk transfer_id true s.now with
      | .error e =>
          -- cleanup is not reached: the record stays live with status "error"
          ({ s with
              transfer_timeouts := timeouts1
              active_transfers := dictInsert s.active_transfers transfer_id
                ({ t with status := .error }) },
           .error (.exception ("Transfer completion failed: " ++ errMsg e)))
      | .ok (lk1, _lk_result) =>
          let agents1 := update_agent_post_transfer s.agents t.source_agent_id
            t.target_agent_id true
          let duration := s.now - t.created_at
          let db1 := dictModify s.db_transfers transfer_id (fun r =>
            { r with
                status := .completed
                completed_at := some s.now
                was_successful := some true
                agent_feedback := feedback
                duration_seconds := some duration })
          let s1 := { s with
              lk := lk1
              agents := agents1
              db_transfers := db1
              active_transfers := dictRemove s.active_transfers transfer_id
              transfer_timeouts := dictRemove timeouts1 transfer_id }
          (s1, .ok { transfer_id := transfer_id
                     status := .completed
                     success := true
                     duration := some duration })
    else
      let db1 := dictModify s.db_transfers transfer_id (fun r =>
        { r with
            status := .failed
            completed_at := some s.now
            was_successful := some false
            agent_feedback := feedback })
      let s1 := { s with
          db_transfers := db1
          active_transfers := dictRemove s.active_transfers transfer_id
          transfer_timeouts := dictRemove timeouts1 transfer_id }
      (s1, .ok { transfer_id := transfer_id
                 status := .failed
                 success := false
                 duration := none })

/-- Successful response of `cancel_transfer` (transfer_service.py lines
359-363). -/
structure CancelResult : Type where
  transfer_id : String
  status : TStatus
  reason : Option String
deriving Repr, DecidableEq

/-- Model of `WarmTransferService.cancel_transfer` (transfer_service.py lines
313-367): disarm the timer, delete the briefing room, mark the durable row
cancelled, and drop the live entry.  Raises `ValueError` when the transfer is
not in the live working set — including when it already reached a terminal
phase and was removed. -/
def cancel_transfer (s : SystemState) (transfer_id : String) (reason : Option String) :
    SystemState × Except TErr CancelResult :=
  match dictGet s.active_transfers transfer_id with
  | none => (s, .error (.valueError ("Transfer " ++ transfer_id ++ " not found")))
  | some t =>
    let timeouts1 := dictRemove s.transfer_timeouts transfer_id
    let (lk1, _) := delete_room s.lk t.transfer_room
    let db1 := dictModify s.db_transfers transfer_id (fun r =>
      { r with status := .cancelled, agent_feedback := reason })
    let s1 := { s with
        lk := lk1
        db_transfers := db1
        active_transfers := dictRemove s.active_transfers transfer_id
        transfer_timeouts := dictRemove timeouts1 transfer_id }
    (s1, .ok { transfer_id := transfer_id, status := .cancelled, reason := reason })

/-- The body of `WarmTransferService._handle_transfer_timeout`
(transfer_service.py lines 474-480) after the sleep elapses: cancel with
reason `"timeout"` when the transfer is still live, do nothing otherwise. -/
def handle_transfer_timeout (s : SystemState) (transfer_id : String) : SystemState :=
  if dictContains s.active_transfers transfer_id then
    (cancel_transfer s transfer_id (some "timeout")).1
  else s

/-- An orchestrator operation, for reasoning about operation sequences. -/
inductive Op : Type where
  | initiate (call_id source_agent_id target_agent_id : String) (reason : Option String)
      (transfer_id room_suffix : String) (ai_summary : PyVal)
  | join (transfer_id agent_id role agent_context : String)
  | complete (transfer_id : String) (success : Bool) (feedback : Option String)
  | cancel (transfer_id : String) (reason : Option String)
  | fireTimeout (transfer_id : String)

/-- State effect of one operation. -/
def step (s : SystemState) : Op → SystemState
  | .initiate c a b r tid suf sum => (initiate_warm_transfer s c a b r tid suf sum).1
  | .join tid a role ctx => (join_transfer_room s tid a role ctx).1
  | .complete tid ok fb => (complete_transfer s tid ok fb).1
  | .cancel tid r => (cancel_transfer s tid r).1
  | .fireTimeout tid => handle_transfer_timeout s tid

/-- State after a sequence of operations. -/
def run (s : SystemState) (ops : List Op) : SystemState :=
  ops.foldl step s

/-! ## Concrete scenario states

A small reachable configuration used by counterexamples and witnesses:
call `c1` in room `room1`, source operator `op-A`, target operator `op-B`
(online, available, load 0 of 2).  `room1` is tracked by the LiveKit service
(as created by the calls flow) with `op-A` and the caller inside. -/

def agentA : AgentRec :=
  { agent_id := "op-A"
    is_available := true
    status := "online"
    current_calls := 1
    max_concurrent_calls := 2
    successful_transfers := 0
    total_calls_handled := 1 }

def agentB : AgentRec :=
  { agent_id := "op-B"
    is_available := true
    status := "online"
    current_calls := 0
    max_concurrent_calls := 2
    successful_transfers := 0
    total_calls_handled := 0 }

def call1 : CallRec :=
  { call_id := "c1"
    room_name := "room1"
    caller_identity := "caller-1"
    priority := "medium" }

/-- A well-formed summary payload as the orchestration code expects it
(the shape the shadowed dict-returning `generate_call_summary` produced). -/
def summaryPayload : PyVal :=
  .dict [("summary", "Customer needs help with billing"), ("sentiment", "neutral")]

def room1rec : RoomRec :=
  { name := "room1"
    created_at := 0
    max_participants := 10
    participants :=
      [("op-A", { identity := "op-A", name := "op-A", role := "agent", joined_at := 0 }),
       ("caller-1", { identity := "caller-1", name := "caller-1", role := "participant", joined_at := 0 })]
    status := "active" }

def s0 : SystemState :=
  { active_transfers := []
    transfer_timeouts := []
    lk := { active_rooms := [("room1", room1rec)]
            lk_active_transfers := []
            participant_sessions := [] }
    agents := [("op-A", agentA), ("op-B", agentB)]
    calls := [("c1", call1)]
    db_transfers := []
    now := 100 }

/-- State after `initiate_warm_transfer` for call `c1` (transfer id `t1`,
room suffix `x1`): transfer `t1` live in `waiting_for_agents`. -/
def s1 : SystemState :=
  (initiate_warm_transfer s0 "c1" "op-A" "op-B" none "t1" "x1" summaryPayload).1

/-- State `s1` after both operators joined: transfer `t1` in `briefing`. -/
def s2 : SystemState :=
  (join_transfer_room
    (join_transfer_room s1 "t1" "op-A" "agent" "ctx-A").1
    "t1" "op-B" "agent" "ctx-B").1

/-- The live record of transfer `t1` in `s1`. -/
def t1rec : TransferRec :=
  { transfer_id := "t1"
    call_id := "c1"
    source_agent_id := "op-A"
    target_agent_id := "op-B"
    transfer_room := "transfer_t1_x1"
    original_room := "room1"
    status := .initiated
    ai_summary := summaryPayload
    created_at := 100
    phase := .waiting_for_agents
    participants := [] }

/-- The live record of transfer `t1` in `s2` (both operators joined). -/
def t1recBriefing : TransferRec :=
  { t1rec with
      status := .in_progress
      phase := .briefing
      participants :=
        [("op-A", { joined_at := 100, role := "agent" }),
         ("op-B", { joined_at := 100, role := "agent" })] }

/-- Success test for `Except`. -/
def exceptIsOk {α : Type} : Except TErr α → Bool
  | .ok _ => true
  | .error _ => false

/-- The LiveKit-side record of transfer `t1` in `s1`. -/
def lt1rec : LkTransferRec :=
  { transfer_id := "t1"
    transfer_room := "transfer_t1_x1"
    original_room := "room1"
    agent_a := "op-A"
    agent_b := "op-B"
    caller := "caller-1"
    status := .initiated
    created_at := 100 }

/-- Witness for C8: the concrete §8 scenario — target `op-B` with
`currentLoad = maxLoad` (2 of 2). -/
def s0cap : SystemState :=
  { s0 with agents := [("op-A", agentA), ("op-B", { agentB with current_calls := 2 })] }

/-- Witness for C10: target operator `op-B` joins the live transfer `t1` of
`s1` and receives the summary payload in the response. -/
def c10res : JoinResult :=
  { access_token :=
      { identity := "op-B"
        name := "Agent-op-B"
        room := "transfer_t1_x1"
        room_join := true
        can_publish := true
        can_subscribe := true
        can_publish_data := true }
    room_name := "transfer_t1_x1"
    transfer_phase := .waiting_for_agents
    ai_summary := some summaryPayload }

/-- The second initiation attempt for call `c1` while transfer `t1` is still
live for that call. -/
def c1secondInit : SystemState × Except TErr InitiateResult :=
  initiate_warm_transfer s1 "c1" "op-A" "op-B" none "t2" "x2" summaryPayload

/-- The phase vocabulary of the spec (§3, §4.1). -/
inductive SpecPhase : Type where
  | awaiting_agents
  | briefing
  | completing
  | completed
  | failed
  | cancelled
deriving Repr, DecidableEq

/-- The §4.1 transition table of the spec, transcribed edge by edge for
comparison with observed behaviour (self-loops for operator joins included). -/
def spec41_allowed_edge : SpecPhase → SpecPhase → Bool
  | .awaiting_agents, .awaiting_agents => true
  | .awaiting_agents, .briefing => true
  | .briefing, .completing => true
  | .completing, .completed => true
  | .briefing, .failed => true
  | .awaiting_agents, .cancelled => true
  | .briefing, .cancelled => true
  | _, _ => false

/-- The spec-level phase a transfer record exhibits: terminal statuses map to
the terminal spec phases, otherwise the in-flight `phase` field decides. -/
def specPhaseOfLive (t : TransferRec) : SpecPhase :=
  match t.status with
  | .completed => .completed
  | .failed => .failed
  | .cancelled => .cancelled
  | _ =>
    match t.phase with
    | .waiting_for_agents => .awaiting_agents
    | .briefing => .briefing

/-- Rank of the in-flight phase for monotonicity arguments. -/
def phaseRank : Phase → Nat
  | .waiting_for_agents => 0
  | .briefing => 1

/-- Does this operation initiate the given transfer id? -/
def opInitiates (op : Op) (tid : String) : Bool :=
  match op with
  | .initiate _ _ _ _ t _ _ => decide (t = tid)
  | _ => false

theorem dictGet_insert_self {α : Type} (l : List (String × α)) (k : String) (v : α) :
    dictGet (dictInsert l k v) k = some v := by
  induction l with
  | nil => simp [dictInsert, dictGet]
  | cons hd tl ih =>
      obtain ⟨k', v'⟩ := hd
      by_cases h : k' = k
      · simp [dictInsert, dictGet, h]
      · simp [dictInsert, dictGet, h, ih]

theorem dictGet_insert_ne {α : Type} (l : List (String × α)) (k k' : String) (v : α)
    (h : k ≠ k') : dictGet (dictInsert l k v) k' = dictGet l k' := by
  induction l with
  | nil => simp [dictInsert, dictGet, h]
  | cons hd tl ih =>
      obtain ⟨k₀, v₀⟩ := hd
      by_cases h₀ : k₀ = k
      · subst h₀; simp [dictInsert, dictGet, h]
      · simp [dictInsert, dictGet, h₀, ih]

theorem dictGet_remove_self {α : Type} (l : List (String × α)) (k : String) :
    dictGet (dictRemove l k) k = none := by
  induction l with
  | nil => simp [dictRemove, dictGet]
  | cons hd tl ih =>
      obtain ⟨k₀, v₀⟩ := hd
      by_cases h₀ : k₀ = k
      · simp [dictRemove, h₀, ih]
      · simp [dictRemove, dictGet, h₀, ih]

theorem dictGet_remove_ne {α : Type} (l : List (String × α)) (k k' : String)
    (h : k ≠ k') : dictGet (dictRemove l k) k' = dictGet l k' := by
  induction l with
  | nil => simp [dictRemove]
  | cons hd tl ih =>
      obtain ⟨k₀, v₀⟩ := hd
      by_cases h₀ : k₀ = k
      · subst h₀
        simp [dictRemove, dictGet, ih, h]
      · simp [dictRemove, dictGet, h₀, ih]

theorem dictRemove_of_not_contains {α : Type} (l : List (String × α)) (k : String)
    (h : dictContains l k = false) : dictRemove l k = l := by
  induction l with
  | nil => simp [dictRemove]
  | cons hd tl ih =>
      obtain ⟨k₀, v₀⟩ := hd
      by_cases h₀ : k₀ = k
      · exfalso
        simp [dictContains, dictGet, h₀] at h
      · simp [dictContains, dictGet, h₀] at h
        simp [dictRemove, h₀, ih, dictContains, h]

theorem dictGet_modify_self {α : Type} (l : List (String × α)) (k : String) (f : α → α) :
    dictGet (dictModify l k f) k = (dictGet l k).map f := by
  induction l with
  | nil => simp [dictModify, dictGet]
  | cons hd tl ih =>
      obtain ⟨k₀, v₀⟩ := hd
      by_cases h₀ : k₀ = k
      · simp [dictModify, dictGet, h₀]
      · simp [dictModify, dictGet, h₀, ih]

theorem dictGet_modify_ne {α : Type} (l : List (String × α)) (k k' : String) (f : α → α)
    (h : k ≠ k') : dictGet (dictModify l k f) k' = dictGet l k' := by
  induction l with
  | nil => simp [dictModify]
  | cons hd tl ih =>
      obtain ⟨k₀, v₀⟩ := hd
      by_cases h₀ : k₀ = k
      · subst h₀
        simp [dictModify, dictGet, h]
      · simp [dictModify, dictGet, h₀, ih]

/-- Claim C4 counterexample: cancelling `t1` succeeds with phase `cancelled`;
cancelling it again does not return the same terminal result — it raises
`ValueError("Transfer t1 not found")`, because the first call removed the
transfer from the live working set. -/
theorem c4_counterexample_second_cancel_raises :
    (cancel_transfer s1 "t1" (some "agent busy")).2
      = .ok { transfer_id := "t1", status := .cancelled, reason := some "agent busy" }
    ∧ (cancel_transfer (cancel_transfer s1 "t1" (some "agent busy")).1 "t1"
        (some "agent busy")).2
      = .error (.valueError "Transfer t1 not found") := by
  constructor
  · rfl
  · rfl

/-- Claim C4 amended: cancelling a live transfer returns the terminal result
(phase `cancelled`), removes it from the live working set, and a second
cancel therefore does not repeat that result — it raises
`ValueError("Transfer ... not found")` and leaves the state unchanged.
Cancel is not idempotent once terminal. -/
theorem c4_cancel_then_cancel_not_found (s : SystemState) (tid : String)
    (reason reason2 : Option String) (t : TransferRec)
    (h : dictGet s.active_transfers tid = some t) :
    (cancel_transfer s tid reason).2
      = .ok { transfer_id := tid, status := .cancelled, reason := reason }
    ∧ cancel_transfer (cancel_transfer s tid reason).1 tid reason2
      = ((cancel_transfer s tid reason).1,
         .error (.valueError ("Transfer " ++ tid ++ " not found"))) := by
  have h2 : dictGet (cancel_transfer s tid reason).1.active_transfers tid = none := by
    simp [cancel_transfer, h, dictGet_remove_self]
  refine ⟨by simp [cancel_transfer, h], ?_⟩
  generalize hX : (cancel_transfer s tid reason).1 = X at h2 ⊢
  simp [cancel_transfer, h2]

/-- Witness for C4 at the concrete scenario: transfer `t1` live in `s1`. -/
theorem c4_cancel_then_cancel_not_found_witness :
    (cancel_transfer s1 "t1" (some "r1")).2
      = .ok { transfer_id := "t1", status := .cancelled, reason := some "r1" }
    ∧ cancel_transfer (cancel_transfer s1 "t1" (some "r1")).1 "t1" (some "r2")
      = ((cancel_transfer s1 "t1" (some "r1")).1,
         .error (.valueError ("Transfer " ++ "t1" ++ " not found"))) :=
  c4_cancel_then_cancel_not_found s1 "t1" (some "r1") (some "r2") t1rec (by rfl)

/-- Helper: removing a participant never touches the tracking entry of a
different room. -/
theorem remove_participant_rooms_other (lk : LiveKitState) (room pid other : String)
    (h : room ≠ other) :
    dictGet (remove_participant_from_room lk room pid).1.active_rooms other
      = dictGet lk.active_rooms other := by
  simp only [remove_participant_from_room]
  split
  · exact dictGet_modify_ne _ _ _ _ h
  · rfl

/-- Helper: adding a participant never touches the tracking entry of a
different room. -/
theorem add_participant_rooms_other (lk : LiveKitState) (room pid other : String)
    (pn : Option String) (role : String) (now : Nat) (h : room ≠ other) :
    dictGet (add_participant_to_room lk room pid pn role now).1.active_rooms other
      = dictGet lk.active_rooms other := by
  simp only [add_participant_to_room]
  split
  · exact dictGet_modify_ne _ _ _ _ h
  · rfl

/-- Claim C3 counterexample: from the reachable state `s1` (transfer `t1`
live, briefing room `transfer_t1_x1` tracked), `complete(success=false)`
drives the transfer to the terminal phase `failed` and removes it from the
live working set — but the briefing room is *not* deleted. -/
theorem c3_counterexample_failed_keeps_room :
    dictContains s1.lk.active_rooms "transfer_t1_x1" = true
    ∧ (complete_transfer s1 "t1" false none).2
        = .ok { transfer_id := "t1", status := .failed, success := false, duration := none }
    ∧ dictContains (complete_transfer s1 "t1" false none).1.active_transfers "t1" = false
    ∧ dictContains (complete_transfer s1 "t1" false none).1.lk.active_rooms
        "transfer_t1_x1" = true := by
  refine ⟨by rfl, by rfl, by rfl, by rfl⟩

/-- Claim C3 amended: on `cancel` and on `complete(success=true)` the
transfer leaves the live working set *and* its briefing room is deleted; on
`complete(success=false)` the transfer leaves the live working set but the
LiveKit state — the briefing room included — is untouched. -/
theorem c3_terminal_cleanup (s : SystemState) (tid : String) (t : TransferRec)
    (reason fb fb2 : Option String) (lt : LkTransferRec)
    (h : dictGet s.active_transfers tid = some t)
    (hlk : dictGet s.lk.lk_active_transfers tid = some lt)
    (hroom : lt.transfer_room = t.transfer_room) :
    (dictContains (cancel_transfer s tid reason).1.active_transfers tid = false
      ∧ dictGet (cancel_transfer s tid reason).1.lk.active_rooms t.transfer_room = none)
    ∧ (dictContains (complete_transfer s tid true fb).1.active_transfers tid = false
      ∧ dictGet (complete_transfer s tid true fb).1.lk.active_rooms t.transfer_room = none)
    ∧ (dictContains (complete_transfer s tid false fb2).1.active_transfers tid = false
      ∧ (complete_transfer s tid false fb2).1.lk = s.lk) := by
  refine ⟨⟨?_, ?_⟩, ⟨?_, ?_⟩, ⟨?_, ?_⟩⟩
  · simp [cancel_transfer, h, dictContains, dictGet_remove_self]
  · simp [cancel_transfer, h, delete_room, dictGet_remove_self]
  · simp [complete_transfer, h, lk_complete_warm_transfer, hlk, dictContains,
      dictGet_remove_self]
  · simp [complete_transfer, h, lk_complete_warm_transfer, hlk, delete_room,
      hroom, dictGet_remove_self]
  · simp [complete_transfer, h, dictContains, dictGet_remove_self]
  · simp [complete_transfer, h]

/-- Witness for C3 at the concrete scenario: transfer `t1` live in `s1`. -/
theorem c3_terminal_cleanup_witness :
    (dictContains (cancel_transfer s1 "t1" (some "x")).1.active_transfers "t1" = false
      ∧ dictGet (cancel_transfer s1 "t1" (some "x")).1.lk.active_rooms
          t1rec.transfer_room = none)
    ∧ (dictContains (complete_transfer s1 "t1" true none).1.active_transfers "t1" = false
      ∧ dictGet (complete_transfer s1 "t1" true none).1.lk.active_rooms
          t1rec.transfer_room = none)
    ∧ (dictContains (complete_transfer s1 "t1" false none).1.active_transfers "t1" = false
      ∧ (complete_transfer s1 "t1" false none).1.lk = s1.lk) :=
  c3_terminal_cleanup s1 "t1" t1rec (some "x") none none lt1rec (by rfl) (by rfl) (by rfl)

/-- Claim C5 (code bug): the *effective* `generate_call_summary` — the second
definition in the class body, which shadows the dict-returning first one —
absorbs the provider failure and returns the deterministic local fallback
summary as a bare string; but `initiate_warm_transfer` then subscripts that
string with `"summary"`, raising `TypeError`, so initiation fails instead of
proceeding with the fallback: no transfer is created and no timer is armed
(while the already-created briefing room leaks). -/
theorem c5_summary_fallback_then_type_error :
    ai_generate_call_summary true (.error (.exception "openai boom")) "c1"
        "Customer support call"
      = .str (enhanced_fallback_summary "c1" "Customer support call")
    ∧ (initiate_warm_transfer s0 "c1" "op-A" "op-B" none "t1" "x1"
        (ai_generate_call_summary true (.error (.exception "openai boom")) "c1"
          "Customer support call")).2
      = .error (.exception "Transfer initiation failed: string indices must be integers")
    ∧ dictContains (initiate_warm_transfer s0 "c1" "op-A" "op-B" none "t1" "x1"
        (ai_generate_call_summary true (.error (.exception "openai boom")) "c1"
          "Customer support call")).1.active_transfers "t1" = false
    ∧ dictContains (initiate_warm_transfer s0 "c1" "op-A" "op-B" none "t1" "x1"
        (ai_generate_call_summary true (.error (.exception "openai boom")) "c1"
          "Customer support call")).1.transfer_timeouts "t1" = false
    ∧ dictContains (initiate_warm_transfer s0 "c1" "op-A" "op-B" none "t1" "x1"
        (ai_generate_call_summary true (.error (.exception "openai boom")) "c1"
          "Customer support call")).1.lk.active_rooms "transfer_t1_x1" = true := by
  refine ⟨by rfl, by rfl, by rfl, by rfl, by rfl⟩

/-- Claim C8: when the target operator is not available, not online, or not
strictly below their concurrent-session maximum, initiation fails and the
whole state is left unchanged — no briefing room and no transfer is
created. -/
theorem c8_initiate_unavailable_rejected (s : SystemState)
    (call_id source_agent_id target_agent_id : String) (reason : Option String)
    (transfer_id room_suffix : String) (ai_summary : PyVal)
    (call : CallRec) (src tgt : AgentRec)
    (hcall : dictGet s.calls call_id = some call)
    (hsrc : dictGet s.agents source_agent_id = some src)
    (htgt : dictGet s.agents target_agent_id = some tgt)
    (hfresh : dictContains s.active_transfers transfer_id = false)
    (hbad : tgt.is_available = false ∨ tgt.status ≠ "online"
      ∨ tgt.current_calls ≥ tgt.max_concurrent_calls) :
    ∃ msg, initiate_warm_transfer s call_id source_agent_id target_agent_id reason
        transfer_id room_suffix ai_summary
      = (s, .error (.exception msg)) := by
  have hcl : cleanup_on_init_failure s transfer_id = s := by
    simp [cleanup_on_init_failure, dictRemove_of_not_contains _ _ hfresh]
  by_cases hb1 : tgt.is_available = false ∨ tgt.status ≠ "online"
  · exact ⟨"Transfer initiation failed: Target agent " ++ target_agent_id ++
      " is not available",
      by simp [initiate_warm_transfer, hcall, hsrc, htgt, hb1, hcl]⟩
  · have hcap : tgt.current_calls ≥ tgt.max_concurrent_calls := by tauto
    exact ⟨"Transfer initiation failed: Target agent " ++ target_agent_id ++
      " is at capacity",
      by simp [initiate_warm_transfer, hcall, hsrc, htgt, hb1, hcap, hcl]⟩

/-- Witness for C8 at the concrete scenario. -/
theorem c8_initiate_unavailable_rejected_witness :
    ∃ msg, initiate_warm_transfer s0cap "c1" "op-A" "op-B" none "t9" "x9" summaryPayload
      = (s0cap, .error (.exception msg)) :=
  c8_initiate_unavailable_rejected s0cap "c1" "op-A" "op-B" none "t9" "x9"
    summaryPayload call1 agentA { agentB with current_calls := 2 }
    (by rfl) (by rfl) (by rfl) (by rfl) (by right; right; decide)

/-- Claim C10: a successful join returns the stored AI summary payload
exactly when the joining identifier is the target operator id of the transfer;
every other joiner (the source operator included) receives `null`. -/
theorem c10_summary_only_for_target (s : SystemState) (tid agent_id role ctx : String)
    (t : TransferRec) (r : JoinResult)
    (h : dictGet s.active_transfers tid = some t)
    (hok : (join_transfer_room s tid agent_id role ctx).2 = .ok r) :
    r.ai_summary = (if agent_id = t.target_agent_id then some t.ai_summary else none)
    ∧ (r.ai_summary ≠ none ↔ agent_id = t.target_agent_id) := by
  have main : r.ai_summary
      = (if agent_id = t.target_agent_id then some t.ai_summary else none) := by
    simp only [join_transfer_room, h] at hok
    split at hok
    · split at hok
      · simp at hok
      · simp at hok
        rw [← hok]
    · simp at hok
      rw [← hok]
  refine ⟨main, ?_⟩
  by_cases hA : agent_id = t.target_agent_id <;> simp [main, hA]

/-- Witness for C10 at the concrete scenario. -/
theorem c10_summary_only_for_target_witness :
    c10res.ai_summary
      = (if "op-B" = t1rec.target_agent_id then some t1rec.ai_summary else none)
    ∧ (c10res.ai_summary ≠ none ↔ "op-B" = t1rec.target_agent_id) :=
  c10_summary_only_for_target s1 "t1" "op-B" "agent" "cx" t1rec c10res (by rfl) (by rfl)

/-- Claim C6 counterexample: in `s2` the transfer `t1` is live between
`op-A` and `op-B` with both already recorded; a join by the unrelated
identifier `op-C` succeeds and adds a third entry to `participants`. -/
theorem c6_counterexample_third_participant :
    exceptIsOk (join_transfer_room s2 "t1" "op-C" "agent" "cx").2 = true
    ∧ (dictGet (join_transfer_room s2 "t1" "op-C" "agent" "cx").1.active_transfers
        "t1").map (fun t => dictContains t.participants "op-C") = some true
    ∧ (dictGet (join_transfer_room s2 "t1" "op-C" "agent" "cx").1.active_transfers
        "t1").map (fun t => t.participants.length) = some 3 := by
  refine ⟨by rfl, by rfl, by rfl⟩

/-- Claim C6 amended: `join_transfer_room` records *any* joining identifier —
it performs no check against the two operator ids fixed at creation, so the
`participants` mapping is bounded only by the set of identifiers that have
joined, not by those two ids. -/
theorem c6_join_records_any_identifier (s : SystemState)
    (tid agent_id role ctx : String) (t : TransferRec)
    (h : dictGet s.active_transfers tid = some t) :
    ∃ u, dictGet (join_transfer_room s tid agent_id role ctx).1.active_transfers tid
        = some u
      ∧ u.participants
          = dictInsert t.participants agent_id { joined_at := s.now, role := role }
      ∧ dictContains u.participants agent_id = true := by
  simp only [join_transfer_room, h]
  split
  · split
    · exact ⟨_, dictGet_insert_self _ _ _, rfl,
        by simp [dictContains, dictGet_insert_self]⟩
    · exact ⟨_, dictGet_insert_self _ _ _, rfl,
        by simp [dictContains, dictGet_insert_self]⟩
  · exact ⟨_, dictGet_insert_self _ _ _, rfl,
      by simp [dictContains, dictGet_insert_self]⟩

/-- Witness for C6 at the concrete scenario: the unrelated identifier `op-C`
joins the live transfer `t1` of `s1`. -/
theorem c6_join_records_any_identifier_witness :
    ∃ u, dictGet (join_transfer_room s1 "t1" "op-C" "agent" "cx").1.active_transfers "t1"
        = some u
      ∧ u.participants
          = dictInsert t1rec.participants "op-C" { joined_at := s1.now, role := "agent" }
      ∧ dictContains u.participants "op-C" = true :=
  c6_join_records_any_identifier s1 "t1" "op-C" "agent" "cx" t1rec (by rfl)

/-- Claim C1 counterexample: in `s1` the call `c1` already has the live,
non-terminal transfer `t1`; a second initiate request for `c1` is *not*
rejected — it succeeds and creates a second live transfer `t2`, so two live
transfers exist for one call identifier. -/
theorem c1_counterexample_duplicate_call_accepted :
    (dictGet s1.active_transfers "t1").map TransferRec.call_id = some "c1"
    ∧ (dictGet s1.active_transfers "t1").map TransferRec.status = some .initiated
    ∧ exceptIsOk c1secondInit.2 = true
    ∧ (dictGet c1secondInit.1.active_transfers "t2").map TransferRec.call_id = some "c1"
    ∧ (dictGet c1secondInit.1.active_transfers "t1").map TransferRec.call_id
        = some "c1" := by
  refine ⟨by rfl, by rfl, by rfl, by rfl, by rfl⟩

/-- Claim C1 amended: `initiate_warm_transfer` performs no duplicate-live-
transfer check.  Whenever the target validation passes, initiation succeeds
and merely *adds* a live transfer: any transfer already live for the same
call identifier stays live alongside the new one, so uniqueness of live
transfers per call id is not enforced and no Conflict is returned. -/
theorem c1_no_conflict_check (s : SystemState)
    (call_id source_agent_id target_agent_id : String) (reason : Option String)
    (transfer_id room_suffix : String) (sum : PyVal) (stext gtext : String)
    (call : CallRec) (src tgt : AgentRec) (other : String) (t0 : TransferRec)
    (hcall : dictGet s.calls call_id = some call)
    (hsrc : dictGet s.agents source_agent_id = some src)
    (htgt : dictGet s.agents target_agent_id = some tgt)
    (havail : tgt.is_available = true) (honline : tgt.status = "online")
    (hcap : tgt.current_calls < tgt.max_concurrent_calls)
    (hsum : initiate_summary_fields sum = .ok (stext, gtext))
    (hlive : dictGet s.active_transfers other = some t0)
    (hsame : t0.call_id = call_id)
    (hfresh : other ≠ transfer_id) :
    exceptIsOk (initiate_warm_transfer s call_id source_agent_id target_agent_id
        reason transfer_id room_suffix sum).2 = true
    ∧ dictGet (initiate_warm_transfer s call_id source_agent_id target_agent_id
        reason transfer_id room_suffix sum).1.active_transfers other = some t0
    ∧ (dictGet (initiate_warm_transfer s call_id source_agent_id target_agent_id
        reason transfer_id room_suffix sum).1.active_transfers transfer_id).map
        TransferRec.call_id = some call_id := by
  have hb1 : ¬ (tgt.is_available = false ∨ tgt.status ≠ "online") := by
    simp [havail, honline]
  have hb2 : ¬ (tgt.current_calls ≥ tgt.max_concurrent_calls) := Nat.not_le.mpr hcap
  refine ⟨?_, ?_, ?_⟩ <;>
    simp [initiate_warm_transfer, hcall, hsrc, htgt, hb1, hb2, hsum, exceptIsOk,
      hlive, dictGet_insert_self, dictGet_insert_ne _ _ _ _ (Ne.symm hfresh), hsame]

/-- Witness for C1 at the concrete scenario: second initiation `t2` for call
`c1` while `t1` is live. -/
theorem c1_no_conflict_check_witness :
    exceptIsOk (initiate_warm_transfer s1 "c1" "op-A" "op-B" none "t2" "x2"
      summaryPayload).2 = true
    ∧ dictGet (initiate_warm_transfer s1 "c1" "op-A" "op-B" none "t2" "x2"
        summaryPayload).1.active_transfers "t1" = some t1rec
    ∧ (dictGet (initiate_warm_transfer s1 "c1" "op-A" "op-B" none "t2" "x2"
        summaryPayload).1.active_transfers "t2").map TransferRec.call_id = some "c1" :=
  c1_no_conflict_check s1 "c1" "op-A" "op-B" none "t2" "x2" summaryPayload
    "Customer needs help with billing" "neutral" call1 agentA agentB "t1" t1rec
    (by rfl) (by rfl) (by rfl) (by rfl) (by rfl) (by decide) (by rfl) (by rfl)
    (by rfl) (by decide)

/-- Helper: effect of the LiveKit success pipeline (remove agent A from the
original room, add agent B, delete the briefing room) on the tracking entry
of the original room, the session map, and the deleted room. -/
theorem lk_handoff_effect (lk : LiveKitState) (orig a b troom : String) (now : Nat)
    (room : RoomRec)
    (horoom : dictGet lk.active_rooms orig = some room)
    (hab : a ≠ b) (hrne : orig ≠ troom) :
    (∃ room', dictGet ((delete_room
        ((add_participant_to_room ((remove_participant_from_room lk orig a).1)
          orig b none "agent" now).1) troom).1).active_rooms orig = some room'
      ∧ dictContains room'.participants b = true
      ∧ dictContains room'.participants a = false)
    ∧ dictGet ((delete_room
        ((add_participant_to_room ((remove_participant_from_room lk orig a).1)
          orig b none "agent" now).1) troom).1).participant_sessions b
        = some { room_name := orig, joined_at := now, role := "agent" }
    ∧ dictGet ((delete_room
        ((add_participant_to_room ((remove_participant_from_room lk orig a).1)
          orig b none "agent" now).1) troom).1).active_rooms troom = none := by
  have h1 : dictGet ((remove_participant_from_room lk orig a).1).active_rooms orig
      = some { room with participants := dictRemove room.participants a } := by
    simp [remove_participant_from_room, dictContains, horoom, dictGet_modify_self]
  have h2 : dictGet ((add_participant_to_room ((remove_participant_from_room lk orig a).1)
        orig b none "agent" now).1).active_rooms orig
      = some { room with
               participants :=
                 dictInsert (dictRemove room.participants a) b ⟨b, b, "agent", now⟩ } := by
    simp [add_participant_to_room, dictContains, h1, dictGet_modify_self]
  refine ⟨⟨{ room with
             participants :=
               dictInsert (dictRemove room.participants a) b ⟨b, b, "agent", now⟩ },
    ?_, ?_, ?_⟩, ?_, ?_⟩
  · simp only [delete_room]
    rw [dictGet_remove_ne _ _ _ (Ne.symm hrne)]
    exact h2
  · simp [dictContains, dictGet_insert_self]
  · simp [dictContains, dictGet_insert_ne _ _ _ _ (Ne.symm hab), dictGet_remove_self]
  · simp [delete_room, add_participant_to_room, remove_participant_from_room,
      dictGet_insert_self]
  · simp [delete_room, dictGet_remove_self]

/-- Claim C7: completing a transfer with `success=true` (from `briefing`
with both operators present) issues the target operator a valid join
credential for the original room, records the target as a participant of the
original room and drops the source operator from it, and deletes the
briefing room; the transfer leaves the live working set with result
`completed`. -/
theorem c7_complete_success_handoff (s : SystemState) (tid : String)
    (fb : Option String) (t : TransferRec) (lt : LkTransferRec) (room : RoomRec)
    (h : dictGet s.active_transfers tid = some t)
    (hlk : dictGet s.lk.lk_active_transfers tid = some lt)
    (ha : lt.agent_a = t.source_agent_id)
    (hb : lt.agent_b = t.target_agent_id)
    (hor : lt.original_room = t.original_room)
    (htr : lt.transfer_room = t.transfer_room)
    (horoom : dictGet s.lk.active_rooms t.original_room = some room)
    (hne : t.source_agent_id ≠ t.target_agent_id)
    (hrne : t.original_room ≠ t.transfer_room)
    (hphase : t.phase = Phase.briefing)
    (hsrcin : dictContains t.participants t.source_agent_id = true)
    (htgtin : dictContains t.participants t.target_agent_id = true) :
    (complete_transfer s tid true fb).2
      = .ok { transfer_id := tid, status := .completed, success := true,
              duration := some (s.now - t.created_at) }
    ∧ (generate_access_token t.original_room t.target_agent_id none).room
        = t.original_room
    ∧ (generate_access_token t.original_room t.target_agent_id none).room_join = true
    ∧ (generate_access_token t.original_room t.target_agent_id none).identity
        = t.target_agent_id
    ∧ (∃ room', dictGet (complete_transfer s tid true fb).1.lk.active_rooms
          t.original_room = some room'
        ∧ dictContains room'.participants t.target_agent_id = true
        ∧ dictContains room'.participants t.source_agent_id = false)
    ∧ dictGet (complete_transfer s tid true fb).1.lk.participant_sessions
        t.target_agent_id
        = some { room_name := t.original_room, joined_at := s.now, role := "agent" }
    ∧ dictGet (complete_transfer s tid true fb).1.lk.active_rooms t.transfer_room = none
    ∧ dictContains (complete_transfer s tid true fb).1.active_transfers tid = false := by
  have heff := lk_handoff_effect s.lk lt.original_room lt.agent_a lt.agent_b
    lt.transfer_room s.now room (by rw [hor]; exact horoom)
    (by rw [ha, hb]; exact hne) (by rw [hor, htr]; exact hrne)
  refine ⟨?_, rfl, rfl, rfl, ?_, ?_, ?_, ?_⟩
  · simp [complete_transfer, h, lk_complete_warm_transfer, hlk]
  · simp only [complete_transfer, h, lk_complete_warm_transfer, hlk]
    rw [← hor, ← hb, ← ha]
    simpa using heff.1
  · simp only [complete_transfer, h, lk_complete_warm_transfer, hlk]
    rw [← hor, ← hb]
    simpa using heff.2.1
  · simp only [complete_transfer, h, lk_complete_warm_transfer, hlk]
    rw [← htr]
    simpa using heff.2.2
  · simp [complete_transfer, h, lk_complete_warm_transfer, hlk, dictContains,
      dictGet_remove_self]

/-- Witness for C7 at the concrete scenario: `s2` has `t1` in `briefing` with
both operators present; completing with `success=true` hands the original
room `room1` over to `op-B`. -/
theorem c7_complete_success_handoff_witness :
    (complete_transfer s2 "t1" true none).2
      = .ok { transfer_id := "t1", status := .completed, success := true,
              duration := some (s2.now - t1recBriefing.created_at) }
    ∧ (generate_access_token t1recBriefing.original_room
        t1recBriefing.target_agent_id none).room = t1recBriefing.original_room
    ∧ (generate_access_token t1recBriefing.original_room
        t1recBriefing.target_agent_id none).room_join = true
    ∧ (generate_access_token t1recBriefing.original_room
        t1recBriefing.target_agent_id none).identity = t1recBriefing.target_agent_id
    ∧ (∃ room', dictGet (complete_transfer s2 "t1" true none).1.lk.active_rooms
          t1recBriefing.original_room = some room'
        ∧ dictContains room'.participants t1recBriefing.target_agent_id = true
        ∧ dictContains room'.participants t1recBriefing.source_agent_id = false)
    ∧ dictGet (complete_transfer s2 "t1" true none).1.lk.participant_sessions
        t1recBriefing.target_agent_id
        = some { room_name := t1recBriefing.original_room, joined_at := s2.now,
                 role := "agent" }
    ∧ dictGet (complete_transfer s2 "t1" true none).1.lk.active_rooms
        t1recBriefing.transfer_room = none
    ∧ dictContains (complete_transfer s2 "t1" true none).1.active_transfers "t1"
        = false :=
  c7_complete_success_handoff s2 "t1" none t1recBriefing lt1rec room1rec
    (by rfl) (by rfl) (by rfl) (by rfl) (by rfl) (by rfl) (by rfl)
    (by decide) (by decide) (by rfl) (by rfl) (by rfl)

/-- Claim C9: firing the armed timeout timer is state-equivalent to calling
`cancel` with reason `"timeout"` — unconditionally, since a cancel of an
already-removed transfer also leaves the state unchanged.  A second firing is
a no-op, the transfer is out of the live set afterwards, and when the
transfer was live, its briefing room is deleted, its durable row is marked
`cancelled` with feedback `"timeout"`, and its timer is disarmed (so the
deletion happens exactly once).  The `Option.map` forms condition the last
three effects on the transfer having been live, without a hypothesis. -/
theorem c9_timeout_equiv_cancel (s : SystemState) (tid : String) :
    handle_transfer_timeout s tid = (cancel_transfer s tid (some "timeout")).1
    ∧ handle_transfer_timeout (handle_transfer_timeout s tid) tid
        = handle_transfer_timeout s tid
    ∧ dictContains (handle_transfer_timeout s tid).active_transfers tid = false
    ∧ (dictGet s.active_transfers tid).map
        (fun t => dictGet (handle_transfer_timeout s tid).lk.active_rooms
          t.transfer_room)
      = (dictGet s.active_transfers tid).map (fun _ => (none : Option RoomRec))
    ∧ (dictGet s.active_transfers tid).map
        (fun _ => dictGet (handle_transfer_timeout s tid).db_transfers tid)
      = (dictGet s.active_transfers tid).map
          (fun _ => (dictGet s.db_transfers tid).map
            (fun r => { r with status := .cancelled, agent_feedback := some "timeout" }))
    ∧ (dictGet s.active_transfers tid).map
        (fun _ => dictContains (handle_transfer_timeout s tid).transfer_timeouts tid)
      = (dictGet s.active_transfers tid).map (fun _ => false) := by
  have hgone : dictContains (handle_transfer_timeout s tid).active_transfers tid
      = false := by
    cases hg : dictGet s.active_transfers tid with
    | none => simp [handle_transfer_timeout, dictContains, hg]
    | some t =>
        simp [handle_transfer_timeout, dictContains, hg, cancel_transfer,
          dictGet_remove_self]
  refine ⟨?_, ?_, hgone, ?_, ?_, ?_⟩
  · cases hg : dictGet s.active_transfers tid with
    | none => simp [handle_transfer_timeout, dictContains, hg, cancel_transfer]
    | some t => simp [handle_transfer_timeout, dictContains, hg]
  · generalize hX : handle_transfer_timeout s tid = X at hgone ⊢
    simp [handle_transfer_timeout, hgone]
  · cases hg : dictGet s.active_transfers tid with
    | none => simp [hg]
    | some t =>
        simp [hg, handle_transfer_timeout, dictContains, cancel_transfer,
          delete_room, dictGet_remove_self]
  · cases hg : dictGet s.active_transfers tid with
    | none => simp [hg]
    | some t =>
        simp [hg, handle_transfer_timeout, dictContains, cancel_transfer,
          dictGet_modify_self]
  · cases hg : dictGet s.active_transfers tid with
    | none => simp [hg]
    | some t =>
        simp [hg, handle_transfer_timeout, dictContains, cancel_transfer,
          dictGet_remove_self]

/-- Claim C2 counterexample: in `s1` the transfer `t1` exhibits spec phase
`awaiting_agents`; `complete(success=false)` nevertheless succeeds and drives
it directly to the terminal phase `failed` (result and durable row), a
transition absent from the §4.1 table — `complete` has no phase guard. -/
theorem c2_counterexample_unguarded_complete :
    (dictGet s1.active_transfers "t1").map specPhaseOfLive = some .awaiting_agents
    ∧ (complete_transfer s1 "t1" false none).2
        = .ok { transfer_id := "t1", status := .failed, success := false,
                duration := none }
    ∧ (dictGet (complete_transfer s1 "t1" false none).1.db_transfers "t1").map
        DbTransferRec.status = some .failed
    ∧ spec41_allowed_edge .awaiting_agents .failed = false
    ∧ spec41_allowed_edge .awaiting_agents .completed = false := by
  refine ⟨by rfl, by rfl, by rfl, by rfl, by rfl⟩

/-- Helper: initiation of a different transfer id never changes the live
entry of `x` (every failure branch only removes its own id, success inserts
its own id). -/
theorem initiate_active_get_other (s : SystemState) (c a b : String)
    (r : Option String) (tid suf : String) (sum : PyVal) (x : String)
    (hx : tid ≠ x) :
    dictGet (initiate_warm_transfer s c a b r tid suf sum).1.active_transfers x
      = dictGet s.active_transfers x := by
  simp only [initiate_warm_transfer]
  repeat' split
  all_goals
    simp [cleanup_on_init_failure, dictGet_remove_ne _ _ _ hx,
      dictGet_insert_ne _ _ _ _ hx]

/-- Helper: joining transfer `tid` never changes the live entry of a
different id `x`. -/
theorem join_active_get_other (s : SystemState) (tid a role ctx x : String)
    (hx : tid ≠ x) :
    dictGet (join_transfer_room s tid a role ctx).1.active_transfers x
      = dictGet s.active_transfers x := by
  simp only [join_transfer_room]
  repeat' split
  all_goals simp [dictGet_insert_ne _ _ _ _ hx]

/-- Helper: after a join of transfer `tid`, its live entry still exists and
its phase has not moved backward; once `briefing`, it stays `briefing`. -/
theorem join_active_get_self (s : SystemState) (tid a role ctx : String)
    (t : TransferRec) (h : dictGet s.active_transfers tid = some t) :
    ∃ u, dictGet (join_transfer_room s tid a role ctx).1.active_transfers tid = some u
      ∧ phaseRank t.phase ≤ phaseRank u.phase
      ∧ (t.phase = Phase.briefing → u.phase = Phase.briefing) := by
  simp only [join_transfer_room, h]
  split
  · rename_i hcond
    split
    · exact ⟨_, dictGet_insert_self _ _ _, by simp [hcond.2, phaseRank],
        fun _ => rfl⟩
    · exact ⟨_, dictGet_insert_self _ _ _, by simp [hcond.2, phaseRank],
        fun _ => rfl⟩
  · exact ⟨_, dictGet_insert_self _ _ _, le_refl _, fun hb => hb⟩

/-- Helper: completing transfer `tid` never changes the live entry of a
different id `x`. -/
theorem complete_active_get_other (s : SystemState) (tid : String) (ok : Bool)
    (fb : Option String) (x : String) (hx : tid ≠ x) :
    dictGet (complete_transfer s tid ok fb).1.active_transfers x
      = dictGet s.active_transfers x := by
  simp only [complete_transfer]
  repeat' split
  all_goals simp [dictGet_insert_ne _ _ _ _ hx, dictGet_remove_ne _ _ _ hx]

/-- Helper: after completing transfer `tid`, its live entry is either gone
(terminal, cleaned up) or marked `error` with the phase untouched. -/
theorem complete_active_get_self (s : SystemState) (tid : String) (ok : Bool)
    (fb : Option String) (t : TransferRec)
    (h : dictGet s.active_transfers tid = some t) :
    dictGet (complete_transfer s tid ok fb).1.active_transfers tid = none
    ∨ dictGet (complete_transfer s tid ok fb).1.active_transfers tid
        = some { t with status := .error } := by
  simp only [complete_transfer, h]
  split
  · split
    · exact Or.inr (by simp [dictGet_insert_self])
    · exact Or.inl (by simp [dictGet_remove_self])
  · exact Or.inl (by simp [dictGet_remove_self])

/-- Helper: cancelling transfer `tid` never changes the live entry of a
different id `x`. -/
theorem cancel_active_get_other (s : SystemState) (tid : String)
    (r : Option String) (x : String) (hx : tid ≠ x) :
    dictGet (cancel_transfer s tid r).1.active_transfers x
      = dictGet s.active_transfers x := by
  simp only [cancel_transfer]
  repeat' split
  all_goals simp [dictGet_remove_ne _ _ _ hx]

/-- Helper: after a cancel, the live entry of `tid` is gone (it either was
removed or did not exist). -/
theorem cancel_active_get_self (s : SystemState) (tid : String)
    (r : Option String) :
    dictGet (cancel_transfer s tid r).1.active_transfers tid = none := by
  cases hg : dictGet s.active_transfers tid with
  | none => simp [cancel_transfer, hg]
  | some t => simp [cancel_transfer, hg, dictGet_remove_self]

/-- Helper: a timeout firing for `tid` never changes the live entry of a
different id `x`. -/
theorem timeout_active_get_other (s : SystemState) (tid x : String)
    (hx : tid ≠ x) :
    dictGet (handle_transfer_timeout s tid).active_transfers x
      = dictGet s.active_transfers x := by
  simp only [handle_transfer_timeout]
  split
  · exact cancel_active_get_other s tid _ x hx
  · rfl

/-- Helper: after a timeout firing, the live entry of `tid` is gone. -/
theorem timeout_active_get_self (s : SystemState) (tid : String) :
    dictGet (handle_transfer_timeout s tid).active_transfers tid = none := by
  simp only [handle_transfer_timeout]
  split
  · exact cancel_active_get_self s tid _
  · rename_i hc
    exact Option.not_isSome_iff_eq_none.mp (by simpa [dictContains] using hc)

/-- Helper: an absent live entry stays absent under any operation that does
not initiate that id. -/
theorem step_active_none (s : SystemState) (op : Op) (x : String)
    (hno : opInitiates op x = false)
    (h : dictGet s.active_transfers x = none) :
    dictGet (step s op).active_transfers x = none := by
  cases op with
  | initiate c a b r tid suf sum =>
      have hx : tid ≠ x := of_decide_eq_false (by simpa [opInitiates] using hno)
      simp only [step]
      rw [initiate_active_get_other s c a b r tid suf sum x hx]
      exact h
  | join tid a role ctx =>
      by_cases hx : tid = x
      · subst hx; simp [step, join_transfer_room, h]
      · simp only [step]
        rw [join_active_get_other s tid a role ctx x hx]
        exact h
  | complete tid ok fb =>
      by_cases hx : tid = x
      · subst hx; simp [step, complete_transfer, h]
      · simp only [step]
        rw [complete_active_get_other s tid ok fb x hx]
        exact h
  | cancel tid r =>
      by_cases hx : tid = x
      · subst hx; simp only [step]; exact cancel_active_get_self s tid r
      · simp only [step]
        rw [cancel_active_get_other s tid r x hx]
        exact h
  | fireTimeout tid =>
      by_cases hx : tid = x
      · subst hx; simp only [step]; exact timeout_active_get_self s tid
      · simp only [step]
        rw [timeout_active_get_other s tid x hx]
        exact h

/-- Helper: one operation never moves the in-flight phase of any live
transfer backward. -/
theorem step_phase_mono (s : SystemState) (op : Op) (x : String)
    (t u : TransferRec) (hno : opInitiates op x = false)
    (h : dictGet s.active_transfers x = some t)
    (h' : dictGet (step s op).active_transfers x = some u) :
    phaseRank t.phase ≤ phaseRank u.phase := by
  cases op with
  | initiate c a b r tid suf sum =>
      have hx : tid ≠ x := of_decide_eq_false (by simpa [opInitiates] using hno)
      simp only [step] at h'
      rw [initiate_active_get_other s c a b r tid suf sum x hx, h] at h'
      injection h' with hh
      rw [hh]
  | join tid a role ctx =>
      by_cases hx : tid = x
      · subst hx
        obtain ⟨v, hv, hrank, _⟩ := join_active_get_self s tid a role ctx t h
        simp only [step] at h'
        rw [hv] at h'
        injection h' with hh
        rw [← hh]
        exact hrank
      · simp only [step] at h'
        rw [join_active_get_other s tid a role ctx x hx, h] at h'
        injection h' with hh
        rw [hh]
  | complete tid ok fb =>
      by_cases hx : tid = x
      · subst hx
        rcases complete_active_get_self s tid ok fb t h with hc | hc
        · simp only [step] at h'
          rw [hc] at h'
          cases h'
        · simp only [step] at h'
          rw [hc] at h'
          injection h' with hh
          rw [← hh]
      · simp only [step] at h'
        rw [complete_active_get_other s tid ok fb x hx, h] at h'
        injection h' with hh
        rw [hh]
  | cancel tid r =>
      by_cases hx : tid = x
      · subst hx
        simp only [step] at h'
        rw [cancel_active_get_self s tid r] at h'
        cases h'
      · simp only [step] at h'
        rw [cancel_active_get_other s tid r x hx, h] at h'
        injection h' with hh
        rw [hh]
  | fireTimeout tid =>
      by_cases hx : tid = x
      · subst hx
        simp only [step] at h'
        rw [timeout_active_get_self s tid] at h'
        cases h'
      · simp only [step] at h'
        rw [timeout_active_get_other s tid x hx, h] at h'
        injection h' with hh
        rw [hh]

/-- Helper: an absent live entry stays absent under a whole sequence of
operations that never initiate that id. -/
theorem run_active_none (s : SystemState) (ops : List Op) (x : String)
    (hno : ∀ op ∈ ops, opInitiates op x = false)
    (h : dictGet s.active_transfers x = none) :
    dictGet (run s ops).active_transfers x = none := by
  induction ops generalizing s with
  | nil => simpa [run] using h
  | cons op rest ih =>
      simp only [run, List.foldl_cons]
      exact ih (step s op) (fun o ho => hno o (List.mem_cons_of_mem _ ho))
        (step_active_none s op x (hno op (List.mem_cons_self _ _)) h)

/-- Helper: phase monotonicity over a sequence of operations. -/
theorem run_phase_mono_aux (ops : List Op) (x : String) :
    ∀ (s : SystemState) (t u : TransferRec),
      (∀ op ∈ ops, opInitiates op x = false) →
      dictGet s.active_transfers x = some t →
      dictGet (run s ops).active_transfers x = some u →
      phaseRank t.phase ≤ phaseRank u.phase := by
  induction ops with
  | nil =>
      intro s t u _ h h'
      simp only [run, List.foldl_nil] at h'
      rw [h] at h'
      injection h' with hh
      rw [hh]
  | cons op rest ih =>
      intro s t u hno h h'
      simp only [run, List.foldl_cons] at h'
      cases hmid : dictGet (step s op).active_transfers x with
      | none =>
          have hnone := run_active_none (step s op) rest x
            (fun o ho => hno o (List.mem_cons_of_mem _ ho)) hmid
          simp only [run] at hnone
          rw [hnone] at h'
          cases h'
      | some v =>
          exact le_trans
            (step_phase_mono s op x t v (hno op (List.mem_cons_self _ _)) h hmid)
            (ih (step s op) v u (fun o ho => hno o (List.mem_cons_of_mem _ ho))
              hmid h')

/-- Claim C2 amended: over any sequence of operations that does not reuse the
transfer id for a fresh initiation, the in-flight phase of a live transfer
never moves backward (`waiting_for_agents` before `briefing`), and once in
`briefing` it stays in `briefing` — the both-present transition fires at most
once.  (The terminal transitions remove the record; as the counterexample
shows, they are not phase-guarded, so the §4.1 edge set is not respected.) -/
theorem c2_phase_monotone (s : SystemState) (ops : List Op) (x : String)
    (t u : TransferRec)
    (hno : ∀ op ∈ ops, opInitiates op x = false)
    (h : dictGet s.active_transfers x = some t)
    (h' : dictGet (run s ops).active_transfers x = some u) :
    phaseRank t.phase ≤ phaseRank u.phase
    ∧ (t.phase = Phase.briefing → u.phase = Phase.briefing) := by
  have main := run_phase_mono_aux ops x s t u hno h h'
  refine ⟨main, fun hb => ?_⟩
  cases hup : u.phase with
  | waiting_for_agents =>
      rw [hb, hup] at main
      simp [phaseRank] at main
  | briefing => rfl

/-- Witness for C2 at the concrete scenario: from `s1`, the sequence
"source joins, target joins" takes `t1` from `waiting_for_agents` to
`briefing`. -/
theorem c2_phase_monotone_witness :
    phaseRank t1rec.phase ≤ phaseRank t1recBriefing.phase
    ∧ (t1rec.phase = Phase.briefing → t1recBriefing.phase = Phase.briefing) :=
  c2_phase_monotone s1
    [Op.join "t1" "op-A" "agent" "cA", Op.join "t1" "op-B" "agent" "cB"]
    "t1" t1rec t1recBriefing (by decide) (by rfl) (by rfl)

end WarmXfer

